import Mathlib

/-!
# rover: the Nomad collector module (`command/nomad.go`)

A shallow embedding of `NomadCommand.Run`.  The function is a straight-line
sequence of calls into the logger, the operating system and the `internal`
package, so it is embedded as a function from a `World` (the answers the
collaborators give) to the ordered list of effects the run performs together
with the way the run ends.
-/

namespace Rover

/-! ## Data model -/

/-- One call of `internal.Dump(moduleName, artifactName, command, args...)`. -/
structure DumpCall where
  moduleName : String
  artifactName : String
  command : String
  args : List String
  deriving DecidableEq, Repr

/-- The externally visible steps of a run, in program order. -/
inductive Effect where
  /-- The call `internal.LogSetup()`. -/
  | logSetup
  /-- The call `internal.CheckProc(name)`. -/
  | checkProc (name : String)
  /-- The call `internal.GetHostName()`. -/
  | getHostName
  /-- A line written by `log.Printf` / `log.Println`. -/
  | logPrint (line : String)
  /-- A line written by `log.Fatalf`, which then exits the process. -/
  | logFatal (line : String)
  /-- The call `os.MkdirAll(path, perm)`; `ok` is true when it returned a nil error. -/
  | mkdirAll (path : String) (perm : Nat) (ok : Bool)
  /-- The call `os.Getenv(key)`. -/
  | getenv (key : String)
  /-- The call `internal.Dump(...)`; `ok` records whether the call had nothing to report. -/
  | dump (call : DumpCall) (ok : Bool)
  /-- A line that `internal.Dump` writes to the log. -/
  | dumpLog (line : String)
  /-- The call `internal.FileExist(path)`. -/
  | fileExist (path : String)
  /-- The call `c.UI.Output(line)`. -/
  | uiOutput (line : String)
  deriving DecidableEq, Repr

/-- How a run ends: `Run` returns an exit code, or the process is terminated. -/
inductive Outcome where
  | returned (code : Int)
  | exited (status : Int)
  deriving DecidableEq, Repr

/-- The fields of `NomadCommand` that `Run` assigns (`UI` is the output surface and is
represented by the `uiOutput` effect). -/
structure NomadCommand where
  HostName : String
  OS : String
  NomadDa : Bool
  deriving DecidableEq, Repr

/-- What goes wrong inside one call of `internal.Dump`, with the line it logs for it. -/
structure DumpOutcome where
  /-- The warning logged when the command cannot be spawned or exits non-zero. -/
  warning : Option String
  /-- The error logged when the artifact file cannot be written. -/
  error : Option String
  deriving DecidableEq, Repr

/-- Whether the call went through: the command ran and its output was written. -/
def DumpOutcome.ok (o : DumpOutcome) : Bool :=
  o.warning.isNone && o.error.isNone

/-- The lines the call writes to the log: the warning, then the error, when present. -/
def DumpOutcome.report (o : DumpOutcome) : List String :=
  o.warning.toList ++ o.error.toList

/-- The answers of the collaborators of one run. -/
structure World where
  /-- Result of `internal.GetHostName()`. -/
  hostName : String
  /-- Value of `runtime.GOOS`. -/
  goos : String
  /-- Result pair of `internal.CheckProc(name)`: the flag and the error (`none` is nil). -/
  checkProc : String → Bool × Option String
  /-- Whether `os.MkdirAll(path, perm)` returns a nil error. -/
  mkdirAll : String → Nat → Bool
  /-- Result of `os.Getenv(key)`; an unset variable reads as the empty string. -/
  getenv : String → String
  /-- Result of `internal.FileExist(path)`. -/
  fileExist : String → Bool
  /-- What happens inside `internal.Dump` for a given call. -/
  dumpOutcome : DumpCall → DumpOutcome

/-- What a run leaves behind: the receiver after the run, the effects, the ending. -/
structure RunResult where
  cmd : NomadCommand
  trace : List Effect
  outcome : Outcome

/-! ## Library functions used by `Run` -/

/-- The constant `os.ModePerm` (`0o777`). -/
def ModePerm : Nat := 0o777

/-- Split a list of characters at every `/`, keeping empty pieces. -/
def splitSlash : List Char → List (List Char)
  | [] => [[]]
  | c :: cs =>
    if c = '/' then [] :: splitSlash cs
    else
      match splitSlash cs with
      | [] => [[c]]
      | p :: ps => (c :: p) :: ps

/-- One step of the lexical scan of `filepath.Clean` on the stack of components kept so
far (most recent first): empty and `.` elements are dropped, `..` removes the last kept
element when there is one that is not itself `..`, is dropped on a rooted path, and is
kept otherwise. -/
def cleanStep (rooted : Bool) (out : List (List Char)) (e : List Char) : List (List Char) :=
  if e = [] ∨ e = ['.'] then out
  else if e = ['.', '.'] then
    match out with
    | [] => if rooted then [] else [e]
    | top :: rest => if top = ['.', '.'] then e :: out else rest
  else e :: out

/-- Go's `filepath.Clean` for Unix paths, on path components. -/
def filepathClean (path : String) : String :=
  if path.data = [] then "."
  else
    let rooted : Bool := path.data.head? = some '/'
    let kept := ((splitSlash path.data).foldl (cleanStep rooted) []).reverse
    let body := String.intercalate "/" (kept.map String.mk)
    if rooted then "/" ++ body
    else if kept = [] then "." else body

/-- Go's `filepath.Join` for two elements on Unix: the non-empty elements from the first
non-empty one on are joined with `/` and cleaned; all empty gives the empty string. -/
def filepathJoin (a b : String) : String :=
  if a ≠ "" then filepathClean (a ++ "/" ++ b)
  else if b ≠ "" then filepathClean b
  else ""

/-! ## The `internal` package, as used by `Run` -/

/-- Modelled from the spec: `internal.Dump` is not part of the sources at hand.  The
spec gives it as `dump(moduleName, artifactName, command, args...) -> void`, best
effort, always returning and never propagating a failure to the caller.  On a spawn
failure or a non-zero exit it logs a warning, on a failure to write the artifact it
logs an error, and it goes on in both cases: one call effect, then the lines it logs,
and no result. -/
def Dump (w : World) (moduleName artifactName command : String) (args : List String) :
    List Effect :=
  let call : DumpCall := ⟨moduleName, artifactName, command, args⟩
  let o := w.dumpOutcome call
  [Effect.dump call o.ok] ++ o.report.map Effect.dumpLog

/-- Modelled from the spec: `internal.FileExist` is not part of the sources at hand.
The spec gives it as `exists(path) -> bool`, never raising, without side effects: one
probe and the answer. -/
def FileExist (w : World) (path : String) : List Effect × Bool :=
  ([Effect.fileExist path], w.fileExist path)

/-! ## `NomadCommand.Run` -/

/-- The directory `Run` creates: `filepath.Join(".", fmt.Sprintf("%s/nomad", HostName))`. -/
def outPath (hostName : String) : String :=
  filepathJoin "." (hostName ++ "/nomad")

/-- The greeting written by `log.Printf("[i] Hello from the rover Nomad module on %s!", _)`. -/
def helloLine (hostName : String) : String :=
  "[i] Hello from the rover Nomad module on " ++ hostName ++ "!"

/-- The line written by `log.Fatalf("[e] Cannot create directory %s.", outPath)`. -/
def fatalLine (path : String) : String :=
  "[e] Cannot create directory " ++ path ++ "."

/-- The note about the missing token. -/
def tokenLine : String := "[i] No VAULT_TOKEN value detected in this environment"

/-- The warning of the branch taken when no process was detected. -/
def noProcLine : String := "[w] No nomad process detected in this environment"

/-- The line logged before the darwin log extraction. -/
def darwinLine : String :=
  "[i] Attempting extraction of Nomad log messages from system log ..."

/-- The line logged before the freebsd/linux log extraction. -/
def unixLine : String :=
  "[i] Attempting extraction of Nomad log messages from system logs (sudo required) ..."

/-- The line logged when `/var/log/syslog` exists. -/
def syslogLine : String :=
  "[i] Checking /var/log/syslog for Nomad entries (sudo required) ..."

/-- The line logged when `/var/log/syslog` does not exist. -/
def messagesLine : String :=
  "[i] No /var/log/syslog found, checking /var/log/messages for Nomad entries (sudo required) ..."

/-- The summary handed to the UI. -/
def summaryLine : String := "Executed Nomad commands and stored output"

/-- The `switch c.OS` statement of `Run`: the log extraction for the supported systems.
The statement has no default case. -/
def logSourceStep (w : World) (os : String) : List Effect :=
  if os = "darwin" then
    [Effect.logPrint darwinLine]
      ++ Dump w "nomad" "nomad_syslog" "grep" ["-w", "nomad", "/var/log/system.log"]
  else if os = "freebsd" ∨ os = "linux" then
    let probe := FileExist w "/var/log/syslog"
    [Effect.logPrint unixLine] ++ probe.1 ++
      (if probe.2 then
        [Effect.logPrint syslogLine]
          ++ Dump w "nomad" "nomad_syslog" "grep" ["-w", "nomad", "/var/log/syslog"]
      else
        [Effect.logPrint messagesLine]
          ++ Dump w "nomad" "nomad_syslog" "grep" ["-w", "nomad", "/var/log/messages"])
  else []

/-- The body of `if c.NomadDa { ... } else { ... }`. -/
def collectStep (w : World) (c : NomadCommand) : List Effect :=
  if c.NomadDa then
    Dump w "nomad" "nomad_status" "nomad" ["status"]
      ++ Dump w "nomad" "nomad_version" "nomad" ["version"]
      ++ logSourceStep w c.OS
  else
    [Effect.logPrint noProcLine]

/-- The note about a missing token: `nomadTokenValue := os.Getenv("VAULT_TOKEN")`
followed by `if len(nomadTokenValue) == 0 { log.Println(...) }`; `len` counts bytes. -/
def adviseStep (w : World) : List Effect :=
  let nomadTokenValue := w.getenv "VAULT_TOKEN"
  if nomadTokenValue.utf8ByteSize = 0 then
    [Effect.getenv "VAULT_TOKEN", Effect.logPrint tokenLine]
  else
    [Effect.getenv "VAULT_TOKEN"]

/-- `func (c *NomadCommand) Run(_ []string) int`. -/
def Run (w : World) (c : NomadCommand) (_args : List String) : RunResult :=
  -- internal.LogSetup(); c.NomadDa, _ = internal.CheckProc("nomad")
  -- c.OS = runtime.GOOS; c.HostName = internal.GetHostName()
  let c : NomadCommand :=
    { c with NomadDa := (w.checkProc "nomad").1, OS := w.goos, HostName := w.hostName }
  let t : List Effect :=
    [Effect.logSetup, Effect.checkProc "nomad", Effect.getHostName,
      Effect.logPrint (helloLine c.HostName)]
  let dir := outPath c.HostName
  if w.mkdirAll dir ModePerm = false then
    -- log.Fatalf exits the process with status 1; the panic after it is never reached
    { cmd := c
      trace := t ++ [Effect.mkdirAll dir ModePerm false, Effect.logFatal (fatalLine dir)]
      outcome := Outcome.exited 1 }
  else
    { cmd := c
      trace := t ++ [Effect.mkdirAll dir ModePerm true] ++ adviseStep w ++ collectStep w c
        ++ [Effect.uiOutput summaryLine]
      outcome := Outcome.returned 0 }

/-! ## Observations on a trace -/

/-- The `internal.Dump` calls of a trace, in order. -/
def dumps : List Effect → List DumpCall
  | [] => []
  | Effect.dump call _ :: es => call :: dumps es
  | _ :: es => dumps es

/-- The paths probed with `internal.FileExist`, in order. -/
def probes : List Effect → List String
  | [] => []
  | Effect.fileExist path :: es => path :: probes es
  | _ :: es => probes es

/-- The lines written to the log, in order: those of `Run` itself (by `Printf`,
`Println` or `Fatalf`) and those of `internal.Dump`. -/
def logLines : List Effect → List String
  | [] => []
  | Effect.logPrint line :: es => line :: logLines es
  | Effect.logFatal line :: es => line :: logLines es
  | Effect.dumpLog line :: es => line :: logLines es
  | _ :: es => logLines es

/-- The lines handed to the UI, in order. -/
def uiLines : List Effect → List String
  | [] => []
  | Effect.uiOutput line :: es => line :: uiLines es
  | _ :: es => uiLines es

/-- Whether an effect is an `internal.Dump` call. -/
def Effect.isDump : Effect → Bool
  | Effect.dump _ _ => true
  | _ => false

/-- Whether `e0` occurs in the trace before the first `Dump` call; true when the trace
has no `Dump` call at all. -/
def occursBeforeDump (e0 : Effect) : List Effect → Bool
  | [] => true
  | e :: es => if e = e0 then true else if e.isDump then false else occursBeforeDump e0 es

/-- The log extraction call `grep -w nomad <path>` stored as `nomad_syslog`. -/
def grepCall (path : String) : DumpCall :=
  ⟨"nomad", "nomad_syslog", "grep", ["-w", "nomad", path]⟩

/-! ## Sample worlds -/

/-- A world in which every collaborator answers favourably on a given system. -/
def sampleWorld (os : String) (running : Bool) : World where
  hostName := "web01"
  goos := os
  checkProc := fun _ => (running, none)
  mkdirAll := fun _ _ => true
  getenv := fun _ => "s.token"
  fileExist := fun _ => true
  dumpOutcome := fun _ => ⟨none, none⟩

/-- The warning of a sample world for a command that could not be run. -/
def sampleWarning (call : DumpCall) : String :=
  "[w] " ++ call.command ++ " failed, nothing captured for " ++ call.artifactName

/-- A world given by the answers that `Run` looks at: the system, the presence flag and
error, whether the directory can be created, the token, whether `/var/log/syslog`
exists.  Every command run by `internal.Dump` fails in it, with a warning. -/
def mkWorld (os : String) (running : Bool) (err : Option String) (created : Bool)
    (token : String) (syslog : Bool) : World where
  hostName := "web01"
  goos := os
  checkProc := fun _ => (running, err)
  mkdirAll := fun _ _ => created
  getenv := fun key => if key = "VAULT_TOKEN" then token else ""
  fileExist := fun path => if path = "/var/log/syslog" then syslog else false
  dumpOutcome := fun call => ⟨some (sampleWarning call), none⟩

/-- The receiver before `Run` is called. -/
def blankCommand : NomadCommand := ⟨"", "", false⟩

/-- The four lines `Run` logs in its log extraction step. -/
def logSourceLines : List String := [darwinLine, unixLine, syslogLine, messagesLine]

/-! ## Lemmas on the observations -/

theorem dumps_append (a b : List Effect) : dumps (a ++ b) = dumps a ++ dumps b := by
  induction a with
  | nil => rfl
  | cons e es ih => cases e <;> simp [dumps, ih]

theorem probes_append (a b : List Effect) : probes (a ++ b) = probes a ++ probes b := by
  induction a with
  | nil => rfl
  | cons e es ih => cases e <;> simp [probes, ih]

theorem logLines_append (a b : List Effect) :
    logLines (a ++ b) = logLines a ++ logLines b := by
  induction a with
  | nil => rfl
  | cons e es ih => cases e <;> simp [logLines, ih]

theorem uiLines_append (a b : List Effect) : uiLines (a ++ b) = uiLines a ++ uiLines b := by
  induction a with
  | nil => rfl
  | cons e es ih => cases e <;> simp [uiLines, ih]

/-- Go's `len(s) == 0` holds for the empty string only. -/
theorem utf8ByteSize_eq_zero_iff (s : String) : s.utf8ByteSize = 0 ↔ s = "" := by
  constructor
  · intro h
    have h1 : s.isEmpty = true := by simp [String.isEmpty, String.endPos, h]
    exact (String.isEmpty_iff s).mp h1
  · rintro rfl
    rfl

/-- The greeting is never the note about the missing token. -/
theorem helloLine_ne_tokenLine (h : String) : helloLine h ≠ tokenLine := by
  intro e
  have e1 := congrArg String.data e
  simp [helloLine, tokenLine] at e1

/-- On a plain host name the created directory is `<hostName>/nomad`. -/
theorem outPath_sample : outPath "web01" = "web01/nomad" := by decide

/-- Splitting at the first `/` when the text before it has none. -/
theorem splitSlash_append_slash (xs ys : List Char) (hx : '/' ∉ xs) :
    splitSlash (xs ++ '/' :: ys) = xs :: splitSlash ys := by
  induction xs with
  | nil => simp [splitSlash]
  | cons x xs ih =>
    have hx1 : x ≠ '/' := fun e => hx (by simp [e])
    have hx2 : '/' ∉ xs := fun e => hx (by simp [e])
    simp [splitSlash, hx1, ih hx2]

/-- On a host name that is a single path element the created directory is
`<hostName>/nomad`. -/
theorem outPath_of_plain (h : String) (hne : h ≠ "") (hs : '/' ∉ h.data)
    (hd : h ≠ ".") (hdd : h ≠ "..") : outPath h = h ++ "/nomad" := by
  have h0 : h.data ≠ [] := fun e => hne (String.ext (by simpa using e))
  have h1 : h.data ≠ ['.'] := fun e => hd (String.ext (by simpa using e))
  have h2 : h.data ≠ ['.', '.'] := fun e => hdd (String.ext (by simpa using e))
  have hsplit : splitSlash ('.' :: '/' :: (h.data ++ ['/', 'n', 'o', 'm', 'a', 'd']))
      = [['.'], h.data, ['n', 'o', 'm', 'a', 'd']] := by
    have e1 := splitSlash_append_slash h.data ['n', 'o', 'm', 'a', 'd'] hs
    have e2 : splitSlash ['n', 'o', 'm', 'a', 'd'] = [['n', 'o', 'm', 'a', 'd']] := by decide
    rw [e2] at e1
    simp [splitSlash, e1]
  have hdata : ("." ++ "/" ++ (h ++ "/nomad")).data
      = '.' :: '/' :: (h.data ++ ['/', 'n', 'o', 'm', 'a', 'd']) := by
    simp
  apply String.ext
  simp only [outPath, filepathJoin, filepathClean, hdata, hsplit]
  simp [cleanStep, h0, h1, h2, String.intercalate, String.intercalate.go]

/-- The trace of a run whose directory creation succeeds. -/
theorem run_trace_of_created (w : World) (c : NomadCommand) (args : List String)
    (hdir : w.mkdirAll (outPath w.hostName) ModePerm = true) :
    (Run w c args).trace =
      [Effect.logSetup, Effect.checkProc "nomad", Effect.getHostName,
        Effect.logPrint (helloLine w.hostName),
        Effect.mkdirAll (outPath w.hostName) ModePerm true]
      ++ adviseStep w
      ++ collectStep w ⟨w.hostName, w.goos, (w.checkProc "nomad").1⟩
      ++ [Effect.uiOutput summaryLine] := by
  simp [Run, hdir]

/-- The trace of a run whose directory creation fails. -/
theorem run_trace_of_failed (w : World) (c : NomadCommand) (args : List String)
    (hdir : w.mkdirAll (outPath w.hostName) ModePerm = false) :
    (Run w c args).trace =
      [Effect.logSetup, Effect.checkProc "nomad", Effect.getHostName,
        Effect.logPrint (helloLine w.hostName),
        Effect.mkdirAll (outPath w.hostName) ModePerm false,
        Effect.logFatal (fatalLine (outPath w.hostName))] := by
  simp [Run, hdir]

/-- The ending of a run is decided by the directory creation alone. -/
theorem run_outcome (w : World) (c : NomadCommand) (args : List String) :
    (Run w c args).outcome =
      if w.mkdirAll (outPath w.hostName) ModePerm = true then Outcome.returned 0
      else Outcome.exited 1 := by
  cases hdir : w.mkdirAll (outPath w.hostName) ModePerm <;> simp [Run, hdir]

/-- The note about the token performs no dump, probe or UI output. -/
theorem adviseStep_silent (w : World) :
    dumps (adviseStep w) = [] ∧ probes (adviseStep w) = [] ∧ uiLines (adviseStep w) = [] := by
  simp only [adviseStep]
  split <;> simp [dumps, probes, uiLines]

/-- The lines of `internal.Dump` hold no call, probe or UI output. -/
theorem observe_dumpLog (ls : List String) :
    dumps (ls.map Effect.dumpLog) = [] ∧ probes (ls.map Effect.dumpLog) = [] ∧
    uiLines (ls.map Effect.dumpLog) = [] ∧ logLines (ls.map Effect.dumpLog) = ls := by
  induction ls with
  | nil => simp [dumps, probes, uiLines, logLines]
  | cons l ls ih => simp [dumps, probes, uiLines, logLines, ih]

/-- One `Dump` is one call. -/
theorem dumps_Dump (w : World) (m a cmd : String) (args : List String) :
    dumps (Dump w m a cmd args) = [⟨m, a, cmd, args⟩] := by
  simp [Dump, dumps, dumps_append, observe_dumpLog]

/-- A `Dump` probes nothing. -/
theorem probes_Dump (w : World) (m a cmd : String) (args : List String) :
    probes (Dump w m a cmd args) = [] := by
  simp [Dump, probes, probes_append, observe_dumpLog]

/-- A `Dump` hands nothing to the UI. -/
theorem uiLines_Dump (w : World) (m a cmd : String) (args : List String) :
    uiLines (Dump w m a cmd args) = [] := by
  simp [Dump, uiLines, uiLines_append, observe_dumpLog]

/-- A `Dump` logs what it has to report. -/
theorem logLines_Dump (w : World) (m a cmd : String) (args : List String) :
    logLines (Dump w m a cmd args) = (w.dumpOutcome ⟨m, a, cmd, args⟩).report := by
  simp [Dump, logLines, logLines_append, observe_dumpLog]

/-- The `Dump` calls of the log extraction step. -/
theorem dumps_logSourceStep (w : World) (os : String) :
    dumps (logSourceStep w os) =
      if os = "darwin" then [grepCall "/var/log/system.log"]
      else if os = "freebsd" ∨ os = "linux" then
        [grepCall (if w.fileExist "/var/log/syslog" = true then "/var/log/syslog"
          else "/var/log/messages")]
      else [] := by
  simp only [logSourceStep, FileExist, grepCall]
  split
  · simp [dumps, dumps_append, dumps_Dump, observe_dumpLog]
  · split
    · by_cases hf : w.fileExist "/var/log/syslog" = true <;>
        simp [hf, dumps, dumps_append, dumps_Dump, observe_dumpLog]
    · simp [dumps]

/-- The probes of the log extraction step. -/
theorem probes_logSourceStep (w : World) (os : String) :
    probes (logSourceStep w os) =
      if os = "freebsd" ∨ os = "linux" then ["/var/log/syslog"] else [] := by
  simp only [logSourceStep, FileExist]
  split
  · next h => subst h; simp [probes, probes_append, probes_Dump, observe_dumpLog]
  · split
    · by_cases hf : w.fileExist "/var/log/syslog" = true <;>
        simp [hf, probes, probes_append, probes_Dump, observe_dumpLog]
    · simp [probes]

/-- The log extraction step hands nothing to the UI. -/
theorem uiLines_logSourceStep (w : World) (os : String) :
    uiLines (logSourceStep w os) = [] := by
  simp only [logSourceStep, FileExist]
  split
  · simp [uiLines, uiLines_append, uiLines_Dump, observe_dumpLog]
  · split
    · by_cases hf : w.fileExist "/var/log/syslog" = true <;>
        simp [hf, uiLines, uiLines_append, uiLines_Dump, observe_dumpLog]
    · simp [uiLines]

/-- The `Dump` calls of the guarded block. -/
theorem dumps_collectStep (w : World) (c : NomadCommand) :
    dumps (collectStep w c) =
      if c.NomadDa = true then
        ⟨"nomad", "nomad_status", "nomad", ["status"]⟩ ::
          ⟨"nomad", "nomad_version", "nomad", ["version"]⟩ :: dumps (logSourceStep w c.OS)
      else [] := by
  cases h : c.NomadDa <;> simp [collectStep, h, dumps_Dump, dumps, dumps_append, observe_dumpLog]

/-- The probes of the guarded block. -/
theorem probes_collectStep (w : World) (c : NomadCommand) :
    probes (collectStep w c) =
      if c.NomadDa = true then probes (logSourceStep w c.OS) else [] := by
  cases h : c.NomadDa <;> simp [collectStep, h, probes_Dump, probes, probes_append, observe_dumpLog]

/-- The guarded block hands nothing to the UI. -/
theorem uiLines_collectStep (w : World) (c : NomadCommand) :
    uiLines (collectStep w c) = [] := by
  cases h : c.NomadDa <;>
    simp [collectStep, h, uiLines_Dump, uiLines, uiLines_append, uiLines_logSourceStep,
      observe_dumpLog]

/-- The `Dump` calls of a run. -/
theorem dumps_run (w : World) (c : NomadCommand) (args : List String) :
    dumps (Run w c args).trace =
      if w.mkdirAll (outPath w.hostName) ModePerm = true ∧ (w.checkProc "nomad").1 = true then
        ⟨"nomad", "nomad_status", "nomad", ["status"]⟩ ::
          ⟨"nomad", "nomad_version", "nomad", ["version"]⟩ :: dumps (logSourceStep w w.goos)
      else [] := by
  cases hdir : w.mkdirAll (outPath w.hostName) ModePerm
  · simp [run_trace_of_failed w c args hdir, dumps]
  · simp [run_trace_of_created w c args hdir, dumps_append, dumps, adviseStep_silent,
      dumps_collectStep]

/-- The probes of a run. -/
theorem probes_run (w : World) (c : NomadCommand) (args : List String) :
    probes (Run w c args).trace =
      if w.mkdirAll (outPath w.hostName) ModePerm = true ∧ (w.checkProc "nomad").1 = true then
        probes (logSourceStep w w.goos)
      else [] := by
  cases hdir : w.mkdirAll (outPath w.hostName) ModePerm
  · simp [run_trace_of_failed w c args hdir, probes]
  · simp [run_trace_of_created w c args hdir, probes_append, probes, adviseStep_silent,
      probes_collectStep]

/-- The UI output of a run. -/
theorem uiLines_run (w : World) (c : NomadCommand) (args : List String) :
    uiLines (Run w c args).trace =
      if w.mkdirAll (outPath w.hostName) ModePerm = true then [summaryLine] else [] := by
  cases hdir : w.mkdirAll (outPath w.hostName) ModePerm
  · simp [run_trace_of_failed w c args hdir, uiLines]
  · simp [run_trace_of_created w c args hdir, uiLines_append, uiLines, adviseStep_silent,
      uiLines_collectStep]

/-- What `occursBeforeDump` decides: every `Dump` call of the trace has `e0` before it. -/
theorem occursBeforeDump_sound (e0 : Effect) (h0 : e0.isDump = false) (t : List Effect)
    (h : occursBeforeDump e0 t = true) (pre post : List Effect) (d : Effect)
    (ht : t = pre ++ d :: post) (hd : d.isDump = true) : e0 ∈ pre := by
  induction t generalizing pre with
  | nil => cases pre <;> simp at ht
  | cons e es ih =>
    cases pre with
    | nil =>
      simp only [List.nil_append, List.cons.injEq] at ht
      obtain ⟨rfl, -⟩ := ht
      by_cases he : e = e0
      · subst he
        simp [hd] at h0
      · simp [occursBeforeDump, he, hd] at h
    | cons p ps =>
      simp only [List.cons_append, List.cons.injEq] at ht
      obtain ⟨rfl, hes⟩ := ht
      by_cases he : e = e0
      · simp [he]
      · by_cases hdump : e.isDump = true
        · simp [occursBeforeDump, he, hdump] at h
        · simp only [occursBeforeDump, he, hdump, if_false] at h
          exact List.mem_cons_of_mem _ (ih h ps hes)

/-- The fatal line is never the note about the missing token. -/
theorem fatalLine_ne_tokenLine (p : String) : fatalLine p ≠ tokenLine := by
  intro e
  have e1 := congrArg String.data e
  simp [fatalLine, tokenLine] at e1

/-- The log lines of the log extraction step: the lines of `Run` and, after each,
what the `Dump` call reports. -/
theorem logLines_logSourceStep (w : World) (os : String) :
    logLines (logSourceStep w os) =
      if os = "darwin" then
        darwinLine :: (w.dumpOutcome (grepCall "/var/log/system.log")).report
      else if os = "freebsd" ∨ os = "linux" then
        unixLine ::
          (if w.fileExist "/var/log/syslog" = true then
            syslogLine :: (w.dumpOutcome (grepCall "/var/log/syslog")).report
          else messagesLine :: (w.dumpOutcome (grepCall "/var/log/messages")).report)
      else [] := by
  simp only [logSourceStep, FileExist, grepCall]
  split
  · simp [logLines, logLines_append, logLines_Dump, observe_dumpLog]
  · split
    · by_cases hf : w.fileExist "/var/log/syslog" = true <;>
        simp [hf, logLines, logLines_append, logLines_Dump, observe_dumpLog]
    · simp [logLines]

/-- The log lines of the guarded block. -/
theorem logLines_collectStep (w : World) (c : NomadCommand) :
    logLines (collectStep w c) =
      if c.NomadDa = true then
        (w.dumpOutcome ⟨"nomad", "nomad_status", "nomad", ["status"]⟩).report ++
          ((w.dumpOutcome ⟨"nomad", "nomad_version", "nomad", ["version"]⟩).report ++
            logLines (logSourceStep w c.OS))
      else [noProcLine] := by
  cases h : c.NomadDa <;> simp [collectStep, h, logLines_Dump, logLines, logLines_append, observe_dumpLog]

/-- The log lines of the note about the token. -/
theorem logLines_adviseStep (w : World) :
    logLines (adviseStep w) = if w.getenv "VAULT_TOKEN" = "" then [tokenLine] else [] := by
  simp only [adviseStep, utf8ByteSize_eq_zero_iff]
  split <;> simp [logLines]

/-- The log lines of a run. -/
theorem logLines_run (w : World) (c : NomadCommand) (args : List String) :
    logLines (Run w c args).trace =
      if w.mkdirAll (outPath w.hostName) ModePerm = true then
        helloLine w.hostName ::
          ((if w.getenv "VAULT_TOKEN" = "" then [tokenLine] else []) ++
            logLines (collectStep w ⟨w.hostName, w.goos, (w.checkProc "nomad").1⟩))
      else [helloLine w.hostName, fatalLine (outPath w.hostName)] := by
  cases hdir : w.mkdirAll (outPath w.hostName) ModePerm
  · simp [run_trace_of_failed w c args hdir, logLines]
  · simp [run_trace_of_created w c args hdir, logLines_append, logLines,
      logLines_adviseStep]

/-- Among the effects of a `Dump` there is no log statement of `Run`. -/
theorem logPrint_not_mem_Dump (w : World) (m a cmd : String) (args : List String)
    (l : String) : Effect.logPrint l ∉ Dump w m a cmd args := by
  simp [Dump]

/-- The log statements of `Run` in its log extraction step write one of four lines. -/
theorem logPrint_mem_logSourceStep (w : World) (os l : String)
    (h : Effect.logPrint l ∈ logSourceStep w os) : l ∈ logSourceLines := by
  simp only [logSourceStep, FileExist] at h
  split at h
  · simp [logPrint_not_mem_Dump] at h
    simp [logSourceLines, h]
  · split at h
    · by_cases hf : w.fileExist "/var/log/syslog" = true <;>
        simp [hf, logPrint_not_mem_Dump] at h <;>
        rcases h with h | h <;> simp [logSourceLines, h]
    · simp at h

/-- On a system other than darwin, freebsd and linux the log extraction step is empty. -/
theorem logSourceStep_other (w : World) (os : String)
    (h1 : os ≠ "darwin") (h2 : os ≠ "linux") (h3 : os ≠ "freebsd") :
    logSourceStep w os = [] := by
  simp [logSourceStep, h1, h2, h3]

/-- The log statements of `Run` in the guarded block write the warning about the
missing process or one of the lines of the log extraction step. -/
theorem logPrint_mem_collectStep (w : World) (c : NomadCommand) (l : String)
    (h : Effect.logPrint l ∈ collectStep w c) : l = noProcLine ∨ l ∈ logSourceLines := by
  cases hda : c.NomadDa
  · simp [collectStep, hda] at h
    exact Or.inl h
  · simp [collectStep, hda, logPrint_not_mem_Dump] at h
    exact Or.inr (logPrint_mem_logSourceStep w c.OS l h)

/-- The note about the token is written by `Run` exactly when the token reads as empty. -/
theorem logPrint_tokenLine_mem_adviseStep (w : World) :
    Effect.logPrint tokenLine ∈ adviseStep w ↔ w.getenv "VAULT_TOKEN" = "" := by
  simp only [adviseStep, utf8ByteSize_eq_zero_iff]
  split <;> simp_all

/-- The guarded block depends on the world through the existence of `/var/log/syslog`
and the outcomes of `Dump` only. -/
theorem collectStep_congr (w1 w2 : World) (c : NomadCommand)
    (hsys : w1.fileExist "/var/log/syslog" = w2.fileExist "/var/log/syslog")
    (hdump : w1.dumpOutcome = w2.dumpOutcome) : collectStep w1 c = collectStep w2 c := by
  simp [collectStep, logSourceStep, Dump, FileExist, hsys, hdump]

/-! ## The claims -/

/-- C1: when the presence check yields false and the directory is created, `Run` makes
no `Dump` call and no `FileExist` probe, logs the warning
"[w] No nomad process detected in this environment", and returns exit code 0, whatever
the host name, the system, the token and the state of the file system are. -/
theorem run_process_absent (w : World) (c : NomadCommand) (args : List String)
    (hproc : (w.checkProc "nomad").1 = false)
    (hdir : w.mkdirAll (outPath w.hostName) ModePerm = true) :
    dumps (Run w c args).trace = [] ∧
    probes (Run w c args).trace = [] ∧
    "[w] No nomad process detected in this environment" ∈ logLines (Run w c args).trace ∧
    (Run w c args).outcome = Outcome.returned 0 := by
  have ha := adviseStep_silent w
  refine ⟨?_, ?_, ?_, ?_⟩
  · simp [run_trace_of_created w c args hdir, dumps_append, ha, collectStep, hproc, dumps]
  · simp [run_trace_of_created w c args hdir, probes_append, ha, collectStep, hproc, probes]
  · simp [run_trace_of_created w c args hdir, logLines_append, collectStep, hproc, logLines,
      noProcLine]
  · simp [run_outcome, hdir]

/-- A run of C1 on a concrete world. -/
theorem run_process_absent_witness :
    dumps (Run (sampleWorld "linux" false) blankCommand []).trace = [] ∧
    probes (Run (sampleWorld "linux" false) blankCommand []).trace = [] ∧
    "[w] No nomad process detected in this environment"
      ∈ logLines (Run (sampleWorld "linux" false) blankCommand []).trace ∧
    (Run (sampleWorld "linux" false) blankCommand []).outcome = Outcome.returned 0 :=
  run_process_absent (sampleWorld "linux" false) blankCommand [] rfl rfl

/-- C2: on linux and freebsd, with the process detected and the directory created, `Run`
probes `/var/log/syslog` once and no other path (never `/var/log/messages`); when the
probe answers true the log extraction is `grep -w nomad /var/log/syslog`, otherwise it
is `grep -w nomad /var/log/messages`; either way there is exactly one log extraction
call and exactly one call stored as `nomad_syslog`. -/
theorem run_unix_log_source (w : World) (c : NomadCommand) (args : List String)
    (hos : w.goos = "linux" ∨ w.goos = "freebsd")
    (hproc : (w.checkProc "nomad").1 = true)
    (hdir : w.mkdirAll (outPath w.hostName) ModePerm = true) :
    probes (Run w c args).trace = ["/var/log/syslog"] ∧
    "/var/log/messages" ∉ probes (Run w c args).trace ∧
    (w.fileExist "/var/log/syslog" = true →
      dumps (Run w c args).trace =
        [⟨"nomad", "nomad_status", "nomad", ["status"]⟩,
         ⟨"nomad", "nomad_version", "nomad", ["version"]⟩,
         ⟨"nomad", "nomad_syslog", "grep", ["-w", "nomad", "/var/log/syslog"]⟩]) ∧
    (w.fileExist "/var/log/syslog" = false →
      dumps (Run w c args).trace =
        [⟨"nomad", "nomad_status", "nomad", ["status"]⟩,
         ⟨"nomad", "nomad_version", "nomad", ["version"]⟩,
         ⟨"nomad", "nomad_syslog", "grep", ["-w", "nomad", "/var/log/messages"]⟩]) ∧
    ((dumps (Run w c args).trace).filter (fun d => d.command = "grep")).length = 1 ∧
    ((dumps (Run w c args).trace).filter (fun d => d.artifactName = "nomad_syslog")).length
      = 1 := by
  have hp : probes (Run w c args).trace = ["/var/log/syslog"] := by
    rcases hos with h | h <;> simp [probes_run, probes_logSourceStep, hproc, hdir, h]
  have hd : dumps (Run w c args).trace =
      [⟨"nomad", "nomad_status", "nomad", ["status"]⟩,
       ⟨"nomad", "nomad_version", "nomad", ["version"]⟩,
       grepCall (if w.fileExist "/var/log/syslog" = true then "/var/log/syslog"
         else "/var/log/messages")] := by
    rcases hos with h | h <;> simp [dumps_run, dumps_logSourceStep, hproc, hdir, h]
  refine ⟨hp, ?_, ?_, ?_, ?_, ?_⟩
  · simp [hp]
  · intro hf
    simp [hd, hf, grepCall]
  · intro hf
    simp [hd, hf, grepCall]
  · simp [hd, grepCall, List.filter]
  · simp [hd, grepCall, List.filter]

/-- A linux run of C2 in which `/var/log/syslog` exists. -/
theorem run_unix_log_source_witness :
    probes (Run (sampleWorld "linux" true) blankCommand []).trace = ["/var/log/syslog"] ∧
    dumps (Run (sampleWorld "linux" true) blankCommand []).trace =
      [⟨"nomad", "nomad_status", "nomad", ["status"]⟩,
       ⟨"nomad", "nomad_version", "nomad", ["version"]⟩,
       ⟨"nomad", "nomad_syslog", "grep", ["-w", "nomad", "/var/log/syslog"]⟩] :=
  have h := run_unix_log_source (sampleWorld "linux" true) blankCommand []
    (Or.inl rfl) rfl rfl
  ⟨h.1, h.2.2.1 rfl⟩

/-- C3: on every system other than darwin, linux and freebsd (the empty string and
other spellings such as "Linux" included), with the process detected and the directory
created, the `Dump` calls of `Run` are exactly `nomad status` stored as `nomad_status`
and then `nomad version` stored as `nomad_version`; there is no grep call and no
`FileExist` probe. -/
theorem run_other_system (w : World) (c : NomadCommand) (args : List String)
    (hos : w.goos ≠ "darwin" ∧ w.goos ≠ "linux" ∧ w.goos ≠ "freebsd")
    (hproc : (w.checkProc "nomad").1 = true)
    (hdir : w.mkdirAll (outPath w.hostName) ModePerm = true) :
    dumps (Run w c args).trace =
      [⟨"nomad", "nomad_status", "nomad", ["status"]⟩,
       ⟨"nomad", "nomad_version", "nomad", ["version"]⟩] ∧
    probes (Run w c args).trace = [] := by
  obtain ⟨h1, h2, h3⟩ := hos
  constructor
  · simp [dumps_run, dumps_logSourceStep, hproc, hdir, h1, h2, h3]
  · simp [probes_run, probes_logSourceStep, hproc, hdir, h2, h3]

/-- Runs of C3 on the system strings "Linux" and "". -/
theorem run_other_system_witness :
    (dumps (Run (sampleWorld "Linux" true) blankCommand []).trace =
      [⟨"nomad", "nomad_status", "nomad", ["status"]⟩,
       ⟨"nomad", "nomad_version", "nomad", ["version"]⟩] ∧
     probes (Run (sampleWorld "Linux" true) blankCommand []).trace = []) ∧
    (dumps (Run (sampleWorld "" true) blankCommand []).trace =
      [⟨"nomad", "nomad_status", "nomad", ["status"]⟩,
       ⟨"nomad", "nomad_version", "nomad", ["version"]⟩] ∧
     probes (Run (sampleWorld "" true) blankCommand []).trace = []) :=
  ⟨run_other_system (sampleWorld "Linux" true) blankCommand []
      ⟨by decide, by decide, by decide⟩ rfl rfl,
   run_other_system (sampleWorld "" true) blankCommand []
      ⟨by decide, by decide, by decide⟩ rfl rfl⟩

/-- C4: on darwin, with the process detected and the directory created, `Run` makes no
`FileExist` probe whatever the file system would answer, and its `Dump` calls are
`nomad status`, `nomad version` and `grep -w nomad /var/log/system.log`, in that
order. -/
theorem run_darwin (w : World) (c : NomadCommand) (args : List String)
    (hos : w.goos = "darwin")
    (hproc : (w.checkProc "nomad").1 = true)
    (hdir : w.mkdirAll (outPath w.hostName) ModePerm = true) :
    probes (Run w c args).trace = [] ∧
    dumps (Run w c args).trace =
      [⟨"nomad", "nomad_status", "nomad", ["status"]⟩,
       ⟨"nomad", "nomad_version", "nomad", ["version"]⟩,
       ⟨"nomad", "nomad_syslog", "grep", ["-w", "nomad", "/var/log/system.log"]⟩] := by
  constructor
  · simp [probes_run, probes_logSourceStep, hproc, hdir, hos]
  · simp [dumps_run, dumps_logSourceStep, hproc, hdir, hos, grepCall]

/-- A darwin run of C4. -/
theorem run_darwin_witness :
    probes (Run (sampleWorld "darwin" true) blankCommand []).trace = [] ∧
    dumps (Run (sampleWorld "darwin" true) blankCommand []).trace =
      [⟨"nomad", "nomad_status", "nomad", ["status"]⟩,
       ⟨"nomad", "nomad_version", "nomad", ["version"]⟩,
       ⟨"nomad", "nomad_syslog", "grep", ["-w", "nomad", "/var/log/system.log"]⟩] :=
  run_darwin (sampleWorld "darwin" true) blankCommand [] rfl rfl rfl

/-- C5: when the creation of the output directory fails, the run ends in the fatal exit
with no `Dump` call, no `FileExist` probe and no UI summary; and in every run, each
`Dump` call (so the first one) has the successful creation of the output directory
before it in the trace. -/
theorem run_directory_first (w : World) (c : NomadCommand) (args : List String) :
    (w.mkdirAll (outPath w.hostName) ModePerm = false →
      (Run w c args).outcome = Outcome.exited 1 ∧
      dumps (Run w c args).trace = [] ∧
      probes (Run w c args).trace = [] ∧
      uiLines (Run w c args).trace = []) ∧
    (∀ (pre post : List Effect) (d : Effect),
      (Run w c args).trace = pre ++ d :: post → d.isDump = true →
      Effect.mkdirAll (outPath w.hostName) ModePerm true ∈ pre) := by
  constructor
  · intro hdir
    simp [run_outcome, dumps_run, probes_run, uiLines_run, hdir]
  · intro pre post d ht hd
    refine occursBeforeDump_sound (Effect.mkdirAll (outPath w.hostName) ModePerm true) rfl
      (Run w c args).trace ?_ pre post d ht hd
    cases hdir : w.mkdirAll (outPath w.hostName) ModePerm
    · simp [run_trace_of_failed w c args hdir, occursBeforeDump, Effect.isDump]
    · simp [run_trace_of_created w c args hdir, occursBeforeDump, Effect.isDump]

/-- A run of C5 in which the directory cannot be created, and one in which it can: the
first `Dump` call comes after the creation. -/
theorem run_directory_first_witness :
    ((Run (mkWorld "linux" true none false "" true) blankCommand []).outcome
        = Outcome.exited 1 ∧
      dumps (Run (mkWorld "linux" true none false "" true) blankCommand []).trace = [] ∧
      probes (Run (mkWorld "linux" true none false "" true) blankCommand []).trace = [] ∧
      uiLines (Run (mkWorld "linux" true none false "" true) blankCommand []).trace = []) ∧
    Effect.mkdirAll "web01/nomad" 511 true ∈
      [Effect.logSetup, Effect.checkProc "nomad", Effect.getHostName,
        Effect.logPrint "[i] Hello from the rover Nomad module on web01!",
        Effect.mkdirAll "web01/nomad" 511 true, Effect.getenv "VAULT_TOKEN"] :=
  ⟨(run_directory_first (mkWorld "linux" true none false "" true) blankCommand []).1 rfl,
   (run_directory_first (sampleWorld "darwin" true) blankCommand []).2
      [Effect.logSetup, Effect.checkProc "nomad", Effect.getHostName,
        Effect.logPrint "[i] Hello from the rover Nomad module on web01!",
        Effect.mkdirAll "web01/nomad" 511 true, Effect.getenv "VAULT_TOKEN"]
      [Effect.dump ⟨"nomad", "nomad_version", "nomad", ["version"]⟩ true,
        Effect.logPrint darwinLine,
        Effect.dump ⟨"nomad", "nomad_syslog", "grep",
          ["-w", "nomad", "/var/log/system.log"]⟩ true,
        Effect.uiOutput summaryLine]
      (Effect.dump ⟨"nomad", "nomad_status", "nomad", ["status"]⟩ true)
      (by decide) rfl⟩

/-- C6: whenever the directory is created, whatever the presence check, the system, the
file system, the token and the outcome of each `Dump` are, `Run` hands the summary line
to the UI exactly once and returns exit code 0; an ending other than "returned 0"
occurs only when the directory creation failed. -/
theorem run_summary_and_exit (w : World) (c : NomadCommand) (args : List String) :
    (w.mkdirAll (outPath w.hostName) ModePerm = true →
      uiLines (Run w c args).trace = ["Executed Nomad commands and stored output"] ∧
      (Run w c args).outcome = Outcome.returned 0) ∧
    ((Run w c args).outcome ≠ Outcome.returned 0 →
      w.mkdirAll (outPath w.hostName) ModePerm = false) := by
  constructor
  · intro hdir
    simp [uiLines_run, run_outcome, hdir, summaryLine]
  · intro hne
    cases hdir : w.mkdirAll (outPath w.hostName) ModePerm
    · rfl
    · exact absurd (by simp [run_outcome, hdir]) hne

/-- A run of C6 in which every `Dump` fails, and one in which the directory creation
fails. -/
theorem run_summary_and_exit_witness :
    (uiLines (Run (mkWorld "freebsd" true none true "" false) blankCommand []).trace
        = ["Executed Nomad commands and stored output"] ∧
      (Run (mkWorld "freebsd" true none true "" false) blankCommand []).outcome
        = Outcome.returned 0) ∧
    (mkWorld "linux" true none false "" true).mkdirAll
      (outPath (mkWorld "linux" true none false "" true).hostName) ModePerm = false :=
  ⟨(run_summary_and_exit (mkWorld "freebsd" true none true "" false) blankCommand []).1 rfl,
   (run_summary_and_exit (mkWorld "linux" true none false "" true) blankCommand []).2
      (by decide)⟩

/-- C7: in every run the artifact names passed to `Dump` are pairwise distinct, every
`Dump` call uses the module name "nomad", and every artifact name is one of
`nomad_status`, `nomad_version`, `nomad_syslog`. -/
theorem run_artifacts_distinct (w : World) (c : NomadCommand) (args : List String) :
    ((dumps (Run w c args).trace).map (fun d => d.artifactName)).Nodup ∧
    ∀ d ∈ dumps (Run w c args).trace,
      d.moduleName = "nomad" ∧
      (d.artifactName = "nomad_status" ∨ d.artifactName = "nomad_version" ∨
        d.artifactName = "nomad_syslog") := by
  simp only [dumps_run, dumps_logSourceStep]
  split_ifs <;> simp [grepCall]

/-- C9, the claim as written fails: `Run` discards the error of `internal.CheckProc`,
so the log of a run whose presence check failed with an error does not differ from the
log of a run whose presence check returned a clean false. -/
theorem presence_error_not_logged :
    ¬ (logLines
          (Run (mkWorld "linux" false (some "permission denied") true "s.token" true)
            blankCommand []).trace
        ≠ logLines
          (Run (mkWorld "linux" false none true "s.token" true) blankCommand []).trace) := by
  decide

/-- C9, amended: when the presence check returns false together with an error, `Run`
makes no `Dump` call and returns exit code 0 whenever the directory is created, and the
error leaves no mark: the trace, its log lines and the ending are those of the run in
which the presence check returns a clean false. -/
theorem run_presence_error (w : World) (c : NomadCommand) (args : List String) (err : String)
    (hproc : w.checkProc "nomad" = (false, some err)) :
    dumps (Run w c args).trace = [] ∧
    (w.mkdirAll (outPath w.hostName) ModePerm = true →
      (Run w c args).outcome = Outcome.returned 0) ∧
    (Run w c args).trace
      = (Run { w with checkProc := fun _ => (false, none) } c args).trace ∧
    logLines (Run w c args).trace
      = logLines (Run { w with checkProc := fun _ => (false, none) } c args).trace ∧
    (Run w c args).outcome
      = (Run { w with checkProc := fun _ => (false, none) } c args).outcome := by
  have ht : (Run w c args).trace
      = (Run { w with checkProc := fun _ => (false, none) } c args).trace := by
    cases hdir : w.mkdirAll (outPath w.hostName) ModePerm <;>
      simp [Run, collectStep, adviseStep, hproc, hdir]
  refine ⟨?_, ?_, ht, ?_, ?_⟩
  · simp [dumps_run, hproc]
  · intro hdir
    simp [run_outcome, hdir]
  · rw [ht]
  · simp [run_outcome]

/-- A run of C9 whose presence check fails with "permission denied". -/
theorem run_presence_error_witness :
    dumps (Run (mkWorld "linux" false (some "permission denied") true "s.token" true)
      blankCommand []).trace = [] ∧
    (Run (mkWorld "linux" false (some "permission denied") true "s.token" true)
      blankCommand []).outcome = Outcome.returned 0 :=
  have h := run_presence_error
    (mkWorld "linux" false (some "permission denied") true "s.token" true) blankCommand []
    "permission denied" rfl
  ⟨h.1, h.2.1 rfl⟩

/-- C8, the claim as written fails: when the directory cannot be created the run ends
before the variable is read, so with an empty `VAULT_TOKEN` the note is not logged. -/
theorem token_note_not_logged_on_fatal :
    ¬ ("[i] No VAULT_TOKEN value detected in this environment"
          ∈ logLines (Run (mkWorld "linux" true none false "" true) blankCommand []).trace ↔
        (mkWorld "linux" true none false "" true).getenv "VAULT_TOKEN" = "") := by
  decide

/-- C8, amended: two runs that agree on the host name, the presence flag, the system,
the outcome of the directory creation and the existence of `/var/log/syslog` make the
same `Dump` calls and probes, hand the same lines to the UI and end the same way.  When
the directory is created, `Run` writes the note
"[i] No VAULT_TOKEN value detected in this environment" exactly when the variable reads
as empty, and when the `Dump` calls fare the same in both runs the two logs are the
greeting, the note when the variable reads as empty, and one common remainder.  When
the creation fails the note is not logged and the two logs are equal. -/
theorem run_token_advisory (w1 w2 : World) (c : NomadCommand) (args : List String)
    (hhost : w1.hostName = w2.hostName)
    (hos : w1.goos = w2.goos)
    (hproc : (w1.checkProc "nomad").1 = (w2.checkProc "nomad").1)
    (hdir : w1.mkdirAll (outPath w1.hostName) ModePerm
      = w2.mkdirAll (outPath w2.hostName) ModePerm)
    (hsys : w1.fileExist "/var/log/syslog" = w2.fileExist "/var/log/syslog") :
    dumps (Run w1 c args).trace = dumps (Run w2 c args).trace ∧
    probes (Run w1 c args).trace = probes (Run w2 c args).trace ∧
    uiLines (Run w1 c args).trace = uiLines (Run w2 c args).trace ∧
    (Run w1 c args).outcome = (Run w2 c args).outcome ∧
    (w1.mkdirAll (outPath w1.hostName) ModePerm = true →
      (Effect.logPrint "[i] No VAULT_TOKEN value detected in this environment"
          ∈ (Run w1 c args).trace ↔ w1.getenv "VAULT_TOKEN" = "") ∧
      (Effect.logPrint "[i] No VAULT_TOKEN value detected in this environment"
          ∈ (Run w2 c args).trace ↔ w2.getenv "VAULT_TOKEN" = "") ∧
      (w1.dumpOutcome = w2.dumpOutcome →
        ∃ rest : List String,
          logLines (Run w1 c args).trace =
            ("[i] Hello from the rover Nomad module on " ++ w1.hostName ++ "!") ::
              ((if w1.getenv "VAULT_TOKEN" = "" then
                  ["[i] No VAULT_TOKEN value detected in this environment"] else [])
                ++ rest) ∧
          logLines (Run w2 c args).trace =
            ("[i] Hello from the rover Nomad module on " ++ w1.hostName ++ "!") ::
              ((if w2.getenv "VAULT_TOKEN" = "" then
                  ["[i] No VAULT_TOKEN value detected in this environment"] else [])
                ++ rest))) ∧
    (w1.mkdirAll (outPath w1.hostName) ModePerm = false →
      "[i] No VAULT_TOKEN value detected in this environment" ∉ logLines (Run w1 c args).trace ∧
      "[i] No VAULT_TOKEN value detected in this environment" ∉ logLines (Run w2 c args).trace ∧
      logLines (Run w1 c args).trace = logLines (Run w2 c args).trace) := by
  have hmem : ∀ w : World, w.mkdirAll (outPath w.hostName) ModePerm = true →
      (Effect.logPrint tokenLine ∈ (Run w c args).trace ↔ w.getenv "VAULT_TOKEN" = "") := by
    intro w hw
    have h1 := helloLine_ne_tokenLine w.hostName
    have h2 : ¬ Effect.logPrint tokenLine
        ∈ collectStep w ⟨w.hostName, w.goos, (w.checkProc "nomad").1⟩ := by
      intro hm
      rcases logPrint_mem_collectStep w _ _ hm with h | h
      · exact absurd h (by decide)
      · exact absurd h (by decide)
    simp [run_trace_of_created w c args hw, logPrint_tokenLine_mem_adviseStep, h2, Ne.symm h1]
  have hnot : ∀ w : World, w.mkdirAll (outPath w.hostName) ModePerm = false →
      tokenLine ∉ logLines (Run w c args).trace := by
    intro w hw
    have h1 := helloLine_ne_tokenLine w.hostName
    have h2 := fatalLine_ne_tokenLine (outPath w.hostName)
    simp [logLines_run, hw, Ne.symm h1, Ne.symm h2]
  have hdir2 := hdir.symm
  rw [hhost] at hdir
  refine ⟨?_, ?_, ?_, ?_, ?_, ?_⟩
  · simp [dumps_run, dumps_logSourceStep, hhost, hos, hproc, hdir, hsys]
  · simp [probes_run, probes_logSourceStep, hhost, hos, hproc, hdir]
  · simp [uiLines_run, hhost, hdir]
  · simp [run_outcome, hhost, hdir]
  · intro h
    refine ⟨hmem w1 h, hmem w2 (hdir2.trans h), ?_⟩
    intro hdump
    refine ⟨logLines (collectStep w1 ⟨w1.hostName, w1.goos, (w1.checkProc "nomad").1⟩),
      ?_, ?_⟩
    · rw [logLines_run, if_pos h]
      rfl
    · rw [logLines_run, if_pos (hdir2.trans h), ← hhost, ← hos, ← hproc,
        ← collectStep_congr w1 w2 _ hsys hdump]
      rfl
  · intro h
    refine ⟨hnot w1 h, hnot w2 (hdir2.trans h), ?_⟩
    rw [logLines_run, logLines_run, if_neg (by simp [h]), if_neg (by simp [hdir2.trans h]),
      hhost]

/-- Two runs of C8 that differ in the token only. -/
theorem run_token_advisory_witness :
    dumps (Run (mkWorld "linux" true none true "" true) blankCommand []).trace
      = dumps (Run (mkWorld "linux" true none true "s.token" true) blankCommand []).trace ∧
    Effect.logPrint "[i] No VAULT_TOKEN value detected in this environment"
      ∈ (Run (mkWorld "linux" true none true "" true) blankCommand []).trace ∧
    Effect.logPrint "[i] No VAULT_TOKEN value detected in this environment"
      ∉ (Run (mkWorld "linux" true none true "s.token" true) blankCommand []).trace :=
  have h := run_token_advisory (mkWorld "linux" true none true "" true)
    (mkWorld "linux" true none true "s.token" true) blankCommand [] rfl rfl rfl rfl rfl
  ⟨h.1, (h.2.2.2.2.1 rfl).1.mpr rfl, fun hm => absurd ((h.2.2.2.2.1 rfl).2.1.mp hm)
    (by decide)⟩

/-- C10, the claim as written fails: on the system "plan9" nothing is logged for the
skipped step.  The log of the darwin, linux and freebsd run is the log of the "plan9"
run followed by the lines of the log extraction step, and the log of the "plan9" run
holds the greeting and what the two fixed `Dump` calls report, nothing else. -/
theorem unknown_system_not_logged :
    logLines (Run (mkWorld "darwin" true none true "s.token" true) blankCommand []).trace
      = logLines (Run (mkWorld "plan9" true none true "s.token" true) blankCommand []).trace
        ++ logLines (logSourceStep (mkWorld "darwin" true none true "s.token" true) "darwin") ∧
    logLines (Run (mkWorld "linux" true none true "s.token" true) blankCommand []).trace
      = logLines (Run (mkWorld "plan9" true none true "s.token" true) blankCommand []).trace
        ++ logLines (logSourceStep (mkWorld "linux" true none true "s.token" true) "linux") ∧
    logLines (Run (mkWorld "freebsd" true none true "s.token" true) blankCommand []).trace
      = logLines (Run (mkWorld "plan9" true none true "s.token" true) blankCommand []).trace
        ++ logLines
          (logSourceStep (mkWorld "freebsd" true none true "s.token" true) "freebsd") ∧
    logLines (Run (mkWorld "plan9" true none true "s.token" true) blankCommand []).trace
      = ["[i] Hello from the rover Nomad module on web01!",
         "[w] nomad failed, nothing captured for nomad_status",
         "[w] nomad failed, nothing captured for nomad_version"] ∧
    logLines (Run (sampleWorld "plan9" true) blankCommand []).trace
      = ["[i] Hello from the rover Nomad module on web01!"] := by
  decide

/-- C10, amended: when the process is detected, the directory is created and the system
is none of darwin, linux and freebsd, the log extraction step is skipped without a log
line.  The log holds the greeting, the note about the token when it reads as empty, and
what the `Dump` calls for `nomad status` and `nomad version` report; the only log
statements of `Run` that fire are the greeting and the note; on any other system string
the log is this log followed by the lines of the log extraction step.  The run hands
the summary to the UI and returns exit code 0. -/
theorem run_unknown_system_silent (w : World) (c : NomadCommand) (args : List String)
    (hos : w.goos ≠ "darwin" ∧ w.goos ≠ "linux" ∧ w.goos ≠ "freebsd")
    (hproc : (w.checkProc "nomad").1 = true)
    (hdir : w.mkdirAll (outPath w.hostName) ModePerm = true) :
    logLines (Run w c args).trace =
      ("[i] Hello from the rover Nomad module on " ++ w.hostName ++ "!") ::
        ((if w.getenv "VAULT_TOKEN" = "" then
            ["[i] No VAULT_TOKEN value detected in this environment"] else []) ++
          ((w.dumpOutcome ⟨"nomad", "nomad_status", "nomad", ["status"]⟩).report ++
            (w.dumpOutcome ⟨"nomad", "nomad_version", "nomad", ["version"]⟩).report)) ∧
    (∀ l : String, Effect.logPrint l ∈ (Run w c args).trace →
      l = "[i] Hello from the rover Nomad module on " ++ w.hostName ++ "!" ∨
      l = "[i] No VAULT_TOKEN value detected in this environment") ∧
    (∀ os : String,
      logLines (Run { w with goos := os } c args).trace
        = logLines (Run w c args).trace ++ logLines (logSourceStep w os)) ∧
    uiLines (Run w c args).trace = ["Executed Nomad commands and stored output"] ∧
    (Run w c args).outcome = Outcome.returned 0 := by
  obtain ⟨h1, h2, h3⟩ := hos
  have hstep := logSourceStep_other w w.goos h1 h2 h3
  refine ⟨?_, ?_, ?_, ?_, ?_⟩
  · simp [logLines_run, logLines_collectStep, hstep, logLines, hproc, hdir, helloLine,
      tokenLine]
  · intro l hl
    rw [run_trace_of_created w c args hdir] at hl
    simp only [List.mem_append, List.mem_cons, List.mem_singleton, List.not_mem_nil,
      or_false, false_or, Effect.logPrint.injEq] at hl
    rcases hl with ((hl | hl) | hl) | hl
    · simp [helloLine] at hl
      exact Or.inl hl
    · simp only [adviseStep] at hl
      split at hl <;> simp [tokenLine] at hl
      exact Or.inr hl
    · simp [collectStep, hproc, hstep, logPrint_not_mem_Dump] at hl
    · simp at hl
  · intro os
    have hdir2 : ({ w with goos := os } : World).mkdirAll
        (outPath ({ w with goos := os } : World).hostName) ModePerm = true := hdir
    rw [logLines_run, logLines_run, if_pos hdir, if_pos hdir2, logLines_collectStep,
      logLines_collectStep]
    simp [hproc, hstep, logLines, logLines_logSourceStep]
  · simp [uiLines_run, hdir, summaryLine]
  · simp [run_outcome, hdir]

/-- A run of C10 on the system "plan9" with no token set, every `Dump` failing. -/
theorem run_unknown_system_silent_witness :
    logLines (Run (mkWorld "plan9" true none true "" true) blankCommand []).trace =
      ["[i] Hello from the rover Nomad module on web01!",
       "[i] No VAULT_TOKEN value detected in this environment",
       "[w] nomad failed, nothing captured for nomad_status",
       "[w] nomad failed, nothing captured for nomad_version"] ∧
    (Run (mkWorld "plan9" true none true "" true) blankCommand []).outcome
      = Outcome.returned 0 :=
  have h := run_unknown_system_silent (mkWorld "plan9" true none true "" true) blankCommand []
    ⟨by decide, by decide, by decide⟩ rfl rfl
  ⟨h.1, h.2.2.2.2⟩

end Rover
